import Mathlib

/-!
Shallow embedding of `src/triton_parser.go` (repository TiregeRRR/triton_parser).

The Go package decodes Triton inference-server response outputs into the
fields of a caller-supplied struct, guided by each output's name, datatype
tag, and shape.  We embed the decoding engine:

* byte payloads are `List Nat` (one entry per byte, little-endian reads);
* Go's `reflect` types are the inductive `Ty`, runtime values are `Val`;
* the destination struct is a list of `TaggedField` (tag, static type,
  current value); `reflect.Value.Set` becomes list update;
* each Go function returns either a value, a Go `error`, or a Go runtime
  panic; these three outcomes are the constructors of `Res`.

Numeric values are represented by the little-endian bit pattern of their
bytes (a `Nat`); the Go code only moves bytes, it never computes with the
decoded numbers, so signed/float interpretation is a bijection applied
outside the code under study.  `encoding/binary.Read` into a `bool` reads
one byte and yields `b != 0`, which we normalise to the patterns 0 and 1.
-/

namespace TritonParser

/-- The ten numeric Go primitive types the dispatcher instantiates
(`binary.Read` fixed-width kinds); note there is no `uint64` case in the
source dispatch. -/
inductive NumTy
  | bool | uint8 | uint16 | uint32 | int8 | int16 | int32 | int64
  | float32 | float64
deriving DecidableEq, Repr

/-- Byte width of each numeric primitive (`reflect.TypeOf(t).Size()` /
`binary.Read`). -/
def width : NumTy → Nat
  | .bool => 1
  | .uint8 => 1
  | .int8 => 1
  | .uint16 => 2
  | .int16 => 2
  | .uint32 => 4
  | .int32 => 4
  | .float32 => 4
  | .int64 => 8
  | .float64 => 8

theorem width_pos (t : NumTy) : 0 < width t := by
  cases t <;> simp [width]

/-- Static Go types relevant to the decoder: a numeric primitive, `string`,
or a slice type (so `sequence<T>` is `Ty.slice`, `sequence<sequence<T>>`
is `Ty.slice (Ty.slice _)`). -/
inductive Ty
  | num (t : NumTy)
  | str
  | slice (t : Ty)
deriving DecidableEq, Repr

/-- Runtime Go values produced by the decoder.  A numeric value carries its
primitive kind and little-endian bit pattern; a string carries its UTF-8
bytes; a slice carries its elements. -/
inductive Val
  | num (t : NumTy) (bits : Nat)
  | str (bytes : List Nat)
  | arr (elems : List Val)

/-- One field of the destination struct: the value of its `triton` struct
tag (empty string when the tag is absent), its static type, and its current
value. -/
structure TaggedField where
  tag : String
  ty : Ty
  val : Val

/-- One response output descriptor (`GetName` / `GetDatatype` /
`GetShape`); shapes are `[]int64`. -/
structure Output where
  name : String
  datatype : String
  shape : List Int
deriving DecidableEq, Repr

/-- A raw byte payload: one `Nat` (< 256) per byte. -/
abbrev Bytes := List Nat

/-- The destination struct, in field-declaration order. -/
abbrev Struct := List TaggedField

/-- The Go `map[string]reflect.Value` built by `getTagFieldMap`, modelled
as a map from tag to field index in the `Struct` list. -/
abbrev FieldMap := String → Option Nat

/-- Result of running a piece of the Go code: a normal value, a returned
`error`, or a runtime panic (index/slice out of range, `makeslice`, or a
`reflect` panic). -/
inductive Res (α : Type)
  | ok (a : α)
  | err (msg : String)
  | fault (msg : String)

/-- Outcome of a decode step acting on the destination struct. -/
abbrev Outcome := Res Struct

/- Error and panic message abbreviations.  The Go messages carry
formatted detail (`fmt.Errorf`); we keep one constant per message family. -/

/-- `"types doesn't match exp: %T got: %s"` (all type-guard failures). -/
def typeMismatchMsg : String := "types do not match"

/-- `"binary read failed: %w"` wrapping an `encoding/binary` read error. -/
def binaryReadMsg : String := "binary read failed"

/-- `binary.Read` into a `*string` always fails with
`"binary.Read: invalid type *string"`; `unmarshalStringValue` wraps it. -/
def invalidStringReadMsg : String := "binary read failed: invalid type *string"

/-- `"FLOAT16 not yet supported"`. -/
def float16Msg : String := "FLOAT16 not yet supported"

/-- `"unkwnow type: %s"` (unrecognised datatype tag). -/
def unknownTypeMsg : String := "unkwnow type"

/-- `"unknown shape: %v"` (rank-2 shape whose leading dimension is neither
1 nor greater than 1). -/
def unknownShapeMsg : String := "unknown shape"

/-- `"len(shape) > 2 is not yet supported"`. -/
def shapeRankMsg : String := "len(shape) > 2 is not yet supported"

/-- Go runtime panic: `index out of range`. -/
def indexOutOfRangeMsg : String := "runtime error: index out of range"

/-- Go runtime panic: `slice bounds out of range`. -/
def sliceBoundsMsg : String := "runtime error: slice bounds out of range"

/-- Go runtime panic: `makeslice: cap out of range` (negative capacity). -/
def makesliceCapMsg : String := "runtime error: makeslice: cap out of range"

/-- Go runtime panic: `makeslice: len out of range` (negative length). -/
def makesliceLenMsg : String := "runtime error: makeslice: len out of range"

/-- Go panic from calling `reflect.Value.Type` on the zero `reflect.Value`
returned by a missed map lookup. -/
def reflectZeroMsg : String := "reflect: call of reflect.Value.Type on zero Value"

/-- Modelled from the spec: the datatype tag constants (`BOOL`, `UINT8`,
..., `STRING`) are declared in a repository file that is not under `src/`;
the spec fixes them as case-sensitive exact strings matching their names. -/
def BOOL : String := "BOOL"

/-- Modelled from the spec: see `BOOL`. -/
def UINT8 : String := "UINT8"

/-- Modelled from the spec: see `BOOL`. -/
def UINT16 : String := "UINT16"

/-- Modelled from the spec: see `BOOL`. -/
def UINT32 : String := "UINT32"

/-- Modelled from the spec: see `BOOL`. -/
def INT8 : String := "INT8"

/-- Modelled from the spec: see `BOOL`. -/
def INT16 : String := "INT16"

/-- Modelled from the spec: see `BOOL`. -/
def INT32 : String := "INT32"

/-- Modelled from the spec: see `BOOL`. -/
def INT64 : String := "INT64"

/-- Modelled from the spec: see `BOOL`. -/
def FLOAT16 : String := "FLOAT16"

/-- Modelled from the spec: see `BOOL`. -/
def FLOAT32 : String := "FLOAT32"

/-- Modelled from the spec: see `BOOL`. -/
def FLOAT64 : String := "FLOAT64"

/-- Modelled from the spec: see `BOOL`. -/
def STRING : String := "STRING"

/-- Little-endian value of a byte list (each entry taken mod 256, since
entries model bytes). -/
def leNat : List Nat → Nat
  | [] => 0
  | b :: rest => b % 256 + 256 * leNat rest

/-- One fixed-width `binary.Read` from the front of the remaining buffer:
`none` models the `io.EOF`/`io.ErrUnexpectedEOF` error when fewer than `w`
bytes remain, otherwise the little-endian pattern of the first `w` bytes. -/
def readElem (w : Nat) (b : Bytes) : Option Nat :=
  if b.length < w then none else some (leNat (b.take w))

/-- `binary.Read` into a `bool` destination yields `byte != 0`; all other
numeric destinations receive the raw little-endian pattern. -/
def decodeBits (t : NumTy) (bits : Nat) : Nat :=
  match t with
  | .bool => if bits = 0 then 0 else 1
  | _ => bits

/-- Loop body of `getTagFieldMap`: for field `i` (in declaration order)
insert `m[tag] = i`; a later field with the same tag overwrites, matching
Go map assignment. -/
def getTagFieldMapAux : List TaggedField → Nat → FieldMap → FieldMap
  | [], _, m => m
  | f :: rest, i, m =>
      getTagFieldMapAux rest (i + 1) (fun k => if k = f.tag then some i else m k)

/-- `getTagFieldMap`: enumerate the struct fields, mapping each field's
`triton` tag (the empty string when absent) to the field, last write
wins. -/
def getTagFieldMap (s : Struct) : FieldMap :=
  getTagFieldMapAux s 0 (fun _ => none)

/-- `reflect.Value.Set` on field `i` of the struct. -/
def setField (s : Struct) (i : Nat) (v : Val) : Struct :=
  match s[i]? with
  | none => s
  | some f => s.set i { f with val := v }

/-- `unmarshalValue[T]` (numeric scalar): type-check the destination field
against `T`, then `binary.Read` one element, then `Set`. -/
def unmarshalValue (t : NumTy) (m : FieldMap) (s : Struct) (name : String)
    (raw : Bytes) : Outcome :=
  match m name with
  | none => .fault reflectZeroMsg
  | some i =>
    match s[i]? with
    | none => .fault indexOutOfRangeMsg
    | some f =>
      if f.ty = Ty.num t then
        match readElem (width t) raw with
        | none => .err binaryReadMsg
        | some bits => .ok (setField s i (Val.num t (decodeBits t bits)))
      else .err typeMismatchMsg

/-- `unmarshalStringValue` (scalar string): an empty payload returns `nil`
immediately (before any type check); otherwise read the 4-byte length
prefix, type-check the field against `string`, then `binary.Read` into a
`*string`, which `encoding/binary` rejects unconditionally. -/
def unmarshalStringValue (m : FieldMap) (s : Struct) (name : String)
    (raw : Bytes) : Outcome :=
  if raw.length = 0 then .ok s
  else
    match readElem 4 raw with
    | none => .err binaryReadMsg
    | some _ =>
      match m name with
      | none => .fault reflectZeroMsg
      | some i =>
        match s[i]? with
        | none => .fault indexOutOfRangeMsg
        | some f =>
          if f.ty = Ty.str then .err invalidStringReadMsg
          else .err typeMismatchMsg

/-- `bytesToArray[T]`: read `width`-sized elements left-to-right while the
loop index stays below `len(b)`; a trailing partial element makes the
final `binary.Read` fail, so the whole call errors (`none`). -/
def bytesToArray (t : NumTy) (b : Bytes) : Option (List Nat) :=
  if hb : b = [] then some []
  else if b.length < width t then none
  else
    match bytesToArray t (b.drop (width t)) with
    | none => none
    | some rest => some (decodeBits t (leNat (b.take (width t))) :: rest)
termination_by b.length
decreasing_by
  have h1 : 0 < width t := width_pos t
  have h2 : 0 < b.length := List.length_pos.mpr hb
  simp only [List.length_drop]
  omega

/-- `unmarshalArray[T]` (1-D numeric): read `shape[1]` (panicking when the
shape is shorter, and `make([]T, 0, shape[1])` panicking when it is
negative), type-check the field against `[]T`, decode with `bytesToArray`,
then `Set`. -/
def unmarshalArray (t : NumTy) (m : FieldMap) (s : Struct) (name : String)
    (shape : List Int) (raw : Bytes) : Outcome :=
  match shape[1]? with
  | none => .fault indexOutOfRangeMsg
  | some n =>
    if n < 0 then .fault makesliceCapMsg
    else
      match m name with
      | none => .fault reflectZeroMsg
      | some i =>
        match s[i]? with
        | none => .fault indexOutOfRangeMsg
        | some f =>
          if f.ty = Ty.slice (Ty.num t) then
            match bytesToArray t raw with
            | none => .err binaryReadMsg
            | some xs => .ok (setField s i (Val.arr (xs.map (Val.num t))))
          else .err typeMismatchMsg

/-- `unmarshalMultidimenshionalArray[T]` (2-D numeric): reads `shape[0]`
and `shape[1]`, allocates `make([][]T, 0, shape[0])` — length zero — then
type-checks against `[][]T` and runs the nested loops.  The very first
iteration indexes `arr[i][j]` into the zero-length slice and panics, so
the loops panic whenever both dimensions are positive; when either loop
bound is non-positive nothing is read and the zero-length `[][]T` is
stored. -/
def unmarshalMultidimenshionalArray (t : NumTy) (m : FieldMap) (s : Struct)
    (name : String) (shape : List Int) (raw : Bytes) : Outcome :=
  match shape[0]?, shape[1]? with
  | some numOfArrays, some arrLen =>
    if numOfArrays < 0 then .fault makesliceCapMsg
    else
      match m name with
      | none => .fault reflectZeroMsg
      | some i =>
        match s[i]? with
        | none => .fault indexOutOfRangeMsg
        | some f =>
          if f.ty = Ty.slice (Ty.slice (Ty.num t)) then
            if 0 < numOfArrays ∧ 0 < arrLen then .fault indexOutOfRangeMsg
            else .ok (setField s i (Val.arr []))
          else .err typeMismatchMsg
  | _, _ => .fault indexOutOfRangeMsg

/-- The cursor loop shared by `stringBytesToArray` and the nested loops of
`unmarshalMultidimenshionalStringArray`: for each remaining element, slice
`b[prev : prev+4]` for the little-endian length `L`, then
`b[prev+4 : prev+4+L]` for the text; either slice expression panics when
its upper bound exceeds `len(b)` (the `binary.Read`s themselves act on
exact-size readers and cannot fail). -/
def stringRecordsLoop (b : Bytes) : Nat → Nat → Res (List Bytes)
  | 0, _ => .ok []
  | k + 1, prev =>
    if b.length < prev + 4 then .fault sliceBoundsMsg
    else
      let strLen := leNat ((b.drop prev).take 4)
      if b.length < prev + 4 + strLen then .fault sliceBoundsMsg
      else
        match stringRecordsLoop b k (prev + 4 + strLen) with
        | .ok rest => .ok (((b.drop (prev + 4)).take strLen) :: rest)
        | .err e => .err e
        | .fault e => .fault e

/-- `stringBytesToArray(b, size)`: decode `size` length-prefixed records
starting at cursor 0. -/
def stringBytesToArray (b : Bytes) (size : Nat) : Res (List Bytes) :=
  stringRecordsLoop b size 0

/-- `unmarshalStringArray` (1-D string): the element count is
`len(resp.GetShape())` — the rank, not `shape[1]` — then type-check
against `[]string`, return `nil` on an empty payload without touching the
field, otherwise decode that many records and `Set`. -/
def unmarshalStringArray (m : FieldMap) (s : Struct) (name : String)
    (shape : List Int) (raw : Bytes) : Outcome :=
  let arrLen := shape.length
  match m name with
  | none => .fault reflectZeroMsg
  | some i =>
    match s[i]? with
    | none => .fault indexOutOfRangeMsg
    | some f =>
      if f.ty = Ty.slice Ty.str then
        if raw.length = 0 then .ok s
        else
          match stringBytesToArray raw arrLen with
          | .ok recs => .ok (setField s i (Val.arr (recs.map Val.str)))
          | .err e => .err e
          | .fault e => .fault e
      else .err typeMismatchMsg

/-- Rows of the decoded 2-D string array: the nested `i`/`j` loops fill
`arr[i][j]` from a single advancing cursor, i.e. row `i` receives records
`i*n .. i*n+n-1` of the flat row-major record list. -/
def chunkRows (recs : List Bytes) (mm n : Nat) : List Val :=
  (List.range mm).map (fun i => Val.arr (((recs.drop (i * n)).take n).map Val.str))

/-- `unmarshalMultidimenshionalStringArray` (2-D string): reads `shape[0]`
and `shape[1]`, allocates `make([][]string, shape[0])` (panicking when
negative), type-checks against `[][]string`, allocates each row
`make([]string, shape[1])` (panicking when negative), returns `nil` on an
empty payload without touching the field, otherwise decodes
`shape[0]*shape[1]` records row-major and `Set`s the field. -/
def unmarshalMultidimenshionalStringArray (m : FieldMap) (s : Struct)
    (name : String) (shape : List Int) (raw : Bytes) : Outcome :=
  match shape[0]?, shape[1]? with
  | some numOfArrays, some arrLen =>
    if numOfArrays < 0 then .fault makesliceLenMsg
    else
      match m name with
      | none => .fault reflectZeroMsg
      | some i =>
        match s[i]? with
        | none => .fault indexOutOfRangeMsg
        | some f =>
          if f.ty = Ty.slice (Ty.slice Ty.str) then
            if arrLen < 0 then .fault makesliceLenMsg
            else if raw.length = 0 then .ok s
            else
              match stringBytesToArray raw (numOfArrays.toNat * arrLen.toNat) with
              | .ok recs =>
                  .ok (setField s i (Val.arr (chunkRows recs numOfArrays.toNat arrLen.toNat)))
              | .err e => .err e
              | .fault e => .fault e
          else .err typeMismatchMsg
  | _, _ => .fault indexOutOfRangeMsg

/-- `parseToValue`: the scalar-strategy datatype switch (cases in the
source order `BOOL, UINT8, UINT16, UINT32, INT8, INT16, INT32, INT64,
FLOAT16, FLOAT32, FLOAT64, STRING, default`). -/
def parseToValue (m : FieldMap) (s : Struct) (o : Output) (raw : Bytes) : Outcome :=
  if o.datatype = BOOL then unmarshalValue NumTy.bool m s o.name raw
  else if o.datatype = UINT8 then unmarshalValue NumTy.uint8 m s o.name raw
  else if o.datatype = UINT16 then unmarshalValue NumTy.uint16 m s o.name raw
  else if o.datatype = UINT32 then unmarshalValue NumTy.uint32 m s o.name raw
  else if o.datatype = INT8 then unmarshalValue NumTy.int8 m s o.name raw
  else if o.datatype = INT16 then unmarshalValue NumTy.int16 m s o.name raw
  else if o.datatype = INT32 then unmarshalValue NumTy.int32 m s o.name raw
  else if o.datatype = INT64 then unmarshalValue NumTy.int64 m s o.name raw
  else if o.datatype = FLOAT16 then .err float16Msg
  else if o.datatype = FLOAT32 then unmarshalValue NumTy.float32 m s o.name raw
  else if o.datatype = FLOAT64 then unmarshalValue NumTy.float64 m s o.name raw
  else if o.datatype = STRING then unmarshalStringValue m s o.name raw
  else .err unknownTypeMsg

/-- `parseToArray`: the 1-D-strategy datatype switch (same case order). -/
def parseToArray (m : FieldMap) (s : Struct) (o : Output) (raw : Bytes) : Outcome :=
  if o.datatype = BOOL then unmarshalArray NumTy.bool m s o.name o.shape raw
  else if o.datatype = UINT8 then unmarshalArray NumTy.uint8 m s o.name o.shape raw
  else if o.datatype = UINT16 then unmarshalArray NumTy.uint16 m s o.name o.shape raw
  else if o.datatype = UINT32 then unmarshalArray NumTy.uint32 m s o.name o.shape raw
  else if o.datatype = INT8 then unmarshalArray NumTy.int8 m s o.name o.shape raw
  else if o.datatype = INT16 then unmarshalArray NumTy.int16 m s o.name o.shape raw
  else if o.datatype = INT32 then unmarshalArray NumTy.int32 m s o.name o.shape raw
  else if o.datatype = INT64 then unmarshalArray NumTy.int64 m s o.name o.shape raw
  else if o.datatype = FLOAT16 then .err float16Msg
  else if o.datatype = FLOAT32 then unmarshalArray NumTy.float32 m s o.name o.shape raw
  else if o.datatype = FLOAT64 then unmarshalArray NumTy.float64 m s o.name o.shape raw
  else if o.datatype = STRING then unmarshalStringArray m s o.name o.shape raw
  else .err unknownTypeMsg

/-- `parseToMultidimenshionalArray`: the 2-D-strategy datatype switch
(same case order). -/
def parseToMultidimenshionalArray (m : FieldMap) (s : Struct) (o : Output)
    (raw : Bytes) : Outcome :=
  if o.datatype = BOOL then unmarshalMultidimenshionalArray NumTy.bool m s o.name o.shape raw
  else if o.datatype = UINT8 then unmarshalMultidimenshionalArray NumTy.uint8 m s o.name o.shape raw
  else if o.datatype = UINT16 then unmarshalMultidimenshionalArray NumTy.uint16 m s o.name o.shape raw
  else if o.datatype = UINT32 then unmarshalMultidimenshionalArray NumTy.uint32 m s o.name o.shape raw
  else if o.datatype = INT8 then unmarshalMultidimenshionalArray NumTy.int8 m s o.name o.shape raw
  else if o.datatype = INT16 then unmarshalMultidimenshionalArray NumTy.int16 m s o.name o.shape raw
  else if o.datatype = INT32 then unmarshalMultidimenshionalArray NumTy.int32 m s o.name o.shape raw
  else if o.datatype = INT64 then unmarshalMultidimenshionalArray NumTy.int64 m s o.name o.shape raw
  else if o.datatype = FLOAT16 then .err float16Msg
  else if o.datatype = FLOAT32 then unmarshalMultidimenshionalArray NumTy.float32 m s o.name o.shape raw
  else if o.datatype = FLOAT64 then unmarshalMultidimenshionalArray NumTy.float64 m s o.name o.shape raw
  else if o.datatype = STRING then unmarshalMultidimenshionalStringArray m s o.name o.shape raw
  else .err unknownTypeMsg

/-- `parse`: the shape classifier.  Rank above two errs; rank one selects
the scalar strategy; otherwise the second switch case evaluates `shape[0]`
(panicking on an empty shape) and selects the 1-D strategy when
`shape[0] == 1 && len(shape) == 2`, the 2-D strategy when
`len(shape) == 2 && shape[0] > 1`, and errs with `unknown shape`
otherwise. -/
def parse (m : FieldMap) (s : Struct) (o : Output) (raw : Bytes) : Outcome :=
  if o.shape.length > 2 then .err shapeRankMsg
  else if o.shape.length = 1 then parseToValue m s o raw
  else
    match o.shape[0]? with
    | none => .fault indexOutOfRangeMsg
    | some s0 =>
      if s0 = 1 ∧ o.shape.length = 2 then parseToArray m s o raw
      else if o.shape.length = 2 ∧ s0 > 1 then parseToMultidimenshionalArray m s o raw
      else .err unknownShapeMsg

/-- The loop of `unmarshal`: walk the outputs in ascending index order,
skip any output whose name misses the tag map, otherwise pair it with
`rawBytes[i]` (panicking when the raw-contents list is shorter) and
`parse` it, stopping at the first error. -/
def unmarshalAux (m : FieldMap) (raws : List Bytes) :
    List Output → Nat → Struct → Outcome
  | [], _, s => .ok s
  | o :: rest, i, s =>
    match m o.name with
    | none => unmarshalAux m raws rest (i + 1) s
    | some _ =>
      match raws[i]? with
      | none => .fault indexOutOfRangeMsg
      | some rb =>
        match parse m s o rb with
        | .ok s2 => unmarshalAux m raws rest (i + 1) s2
        | .err e => .err e
        | .fault e => .fault e

/-- `unmarshal`: build the tag-field map once, then run the output loop
from index 0.  (The exported `Unmarshal` wrapper additionally rejects a
destination that is not a pointer to a struct; that reflection-level
precondition is outside this embedding, which starts from the struct's
field list.) -/
def unmarshal (outputs : List Output) (raws : List Bytes) (s : Struct) : Outcome :=
  unmarshalAux (getTagFieldMap s) raws outputs 0 s

/-- Element type implied by a datatype tag (`none` for `FLOAT16`, which
is recognised but unsupported, and for unrecognised tags); the condition
chain mirrors the dispatch order of the `parseTo*` functions. -/
def elemTyOfTag (dt : String) : Option Ty :=
  if dt = BOOL then some (Ty.num NumTy.bool)
  else if dt = UINT8 then some (Ty.num NumTy.uint8)
  else if dt = UINT16 then some (Ty.num NumTy.uint16)
  else if dt = UINT32 then some (Ty.num NumTy.uint32)
  else if dt = INT8 then some (Ty.num NumTy.int8)
  else if dt = INT16 then some (Ty.num NumTy.int16)
  else if dt = INT32 then some (Ty.num NumTy.int32)
  else if dt = INT64 then some (Ty.num NumTy.int64)
  else if dt = FLOAT16 then none
  else if dt = FLOAT32 then some (Ty.num NumTy.float32)
  else if dt = FLOAT64 then some (Ty.num NumTy.float64)
  else if dt = STRING then some Ty.str
  else none

/-- Four little-endian bytes of a natural number (the length header of
the string wire format described by the spec). -/
def le4 (n : Nat) : Bytes :=
  [n % 256, n / 256 % 256, n / 65536 % 256, n / 16777216 % 256]

/-- Modelled from the spec: the repository has no encoder; the spec's
round-trip property encodes a string sequence as concatenated
`{4-byte little-endian length, UTF-8 bytes}` records. -/
def encodeStrings (ss : List Bytes) : Bytes :=
  ss.foldr (fun x acc => le4 x.length ++ x ++ acc) []

/-! ## Helper lemmas -/

/-- `bytesToArray` errors whenever the payload length is not a multiple of
the element width: the final partial `binary.Read` fails.  Stated with an
explicit fuel bound for induction on the payload length. -/
theorem bytesToArray_eq_none (t : NumTy) :
    ∀ (fuel : Nat) (b : Bytes), b.length ≤ fuel → ¬ width t ∣ b.length →
      bytesToArray t b = none := by
  intro fuel
  induction fuel with
  | zero =>
    intro b hb hd
    exact absurd (by simp [Nat.le_zero.mp hb]) hd
  | succ n ih =>
    intro b hb hd
    unfold bytesToArray
    by_cases hbe : b = []
    · exact absurd (by simp [hbe]) hd
    · rw [dif_neg hbe]
      by_cases hlt : b.length < width t
      · rw [if_pos hlt]
      · rw [if_neg hlt]
        have hw : 0 < width t := width_pos t
        have hlen : 0 < b.length := List.length_pos.mpr hbe
        have hrec : bytesToArray t (b.drop (width t)) = none := by
          apply ih
          · simp only [List.length_drop]; omega
          · intro hdvd
            apply hd
            have hle : width t ≤ b.length := Nat.not_lt.mp hlt
            have heq : b.length = (b.length - width t) + width t := by omega
            rw [List.length_drop] at hdvd
            rw [heq]
            exact Nat.dvd_add hdvd dvd_rfl
        rw [hrec]

set_option maxHeartbeats 1600000 in
/-- Inversion of `elemTyOfTag`: exactly eleven tags carry an element type
(`FLOAT16` and unrecognised tags carry none). -/
theorem elemTyOfTag_inv (dt : String) (et : Ty) (h : elemTyOfTag dt = some et) :
    (dt = BOOL ∧ et = Ty.num NumTy.bool) ∨ (dt = UINT8 ∧ et = Ty.num NumTy.uint8)
    ∨ (dt = UINT16 ∧ et = Ty.num NumTy.uint16) ∨ (dt = UINT32 ∧ et = Ty.num NumTy.uint32)
    ∨ (dt = INT8 ∧ et = Ty.num NumTy.int8) ∨ (dt = INT16 ∧ et = Ty.num NumTy.int16)
    ∨ (dt = INT32 ∧ et = Ty.num NumTy.int32) ∨ (dt = INT64 ∧ et = Ty.num NumTy.int64)
    ∨ (dt = FLOAT32 ∧ et = Ty.num NumTy.float32) ∨ (dt = FLOAT64 ∧ et = Ty.num NumTy.float64)
    ∨ (dt = STRING ∧ et = Ty.str) := by
  unfold elemTyOfTag at h
  split_ifs at h with h1 h2 h3 h4 h5 h6 h7 h8 h9 h10 h11 h12
  · exact Or.inl ⟨h1, (Option.some.inj h).symm⟩
  · exact Or.inr (Or.inl ⟨h2, (Option.some.inj h).symm⟩)
  · exact Or.inr (Or.inr (Or.inl ⟨h3, (Option.some.inj h).symm⟩))
  · exact Or.inr (Or.inr (Or.inr (Or.inl ⟨h4, (Option.some.inj h).symm⟩)))
  · exact Or.inr (Or.inr (Or.inr (Or.inr (Or.inl ⟨h5, (Option.some.inj h).symm⟩))))
  · exact Or.inr (Or.inr (Or.inr (Or.inr (Or.inr (Or.inl ⟨h6, (Option.some.inj h).symm⟩)))))
  · exact Or.inr (Or.inr (Or.inr (Or.inr (Or.inr (Or.inr (Or.inl ⟨h7, (Option.some.inj h).symm⟩))))))
  · exact Or.inr (Or.inr (Or.inr (Or.inr (Or.inr (Or.inr (Or.inr (Or.inl ⟨h8, (Option.some.inj h).symm⟩)))))))
  · exact Or.inr (Or.inr (Or.inr (Or.inr (Or.inr (Or.inr (Or.inr (Or.inr (Or.inl ⟨h10, (Option.some.inj h).symm⟩))))))))
  · exact Or.inr (Or.inr (Or.inr (Or.inr (Or.inr (Or.inr (Or.inr (Or.inr (Or.inr (Or.inl ⟨h11, (Option.some.inj h).symm⟩)))))))))
  · exact Or.inr (Or.inr (Or.inr (Or.inr (Or.inr (Or.inr (Or.inr (Or.inr (Or.inr (Or.inr ⟨h12, (Option.some.inj h).symm⟩)))))))))

/-- Any index the registry returns for a lookup key points at a field
whose tag equals that key (induction over the field list with an
arbitrary starting index and initial map). -/
theorem getTagFieldMapAux_spec :
    ∀ (l : List TaggedField) (start : Nat) (m0 : FieldMap) (k : String) (i : Nat),
      getTagFieldMapAux l start m0 k = some i →
      m0 k = some i ∨ ∃ j f, l[j]? = some f ∧ f.tag = k ∧ i = start + j := by
  intro l
  induction l with
  | nil => intro start m0 k i h; exact Or.inl h
  | cons f rest ih =>
    intro start m0 k i h
    rcases ih (start + 1) (fun k2 => if k2 = f.tag then some start else m0 k2) k i h with
      h0 | ⟨j, g, hj, hg, hi⟩
    · have h0' : (if k = f.tag then some start else m0 k) = some i := h0
      by_cases hk : k = f.tag
      · rw [if_pos hk] at h0'
        have hi : i = start := (Option.some.inj h0').symm
        exact Or.inr ⟨0, f, by simp, hk.symm, by omega⟩
      · rw [if_neg hk] at h0'
        exact Or.inl h0'
    · exact Or.inr ⟨j + 1, g, by simpa using hj, hg, by omega⟩

/-! ## Claim theorems -/

/-- Claim C1 (code bug): the claim says a 2-D numeric output with shape
`[m, n]` (`m > 1`), a matching slice-of-slice field and an `m*n*width`
payload decodes to `m` rows of `n` little-endian elements.  The code
instead allocates the outer slice with length zero
(`make([][]T, 0, numOfArrays)`) and then indexes `arr[i][j]`, so the very
first loop iteration panics with index out of range: here an `INT32`
output with shape `[2, 2]`, a `[][]int32` field, and a 16-byte payload. -/
theorem c1_multidim_numeric_decode_panics :
    unmarshal [⟨"out", "INT32", [2, 2]⟩]
      [[1, 0, 0, 0, 2, 0, 0, 0, 3, 0, 0, 0, 4, 0, 0, 0]]
      [⟨"out", Ty.slice (Ty.slice (Ty.num NumTy.int32)), Val.arr []⟩]
      = Res.fault indexOutOfRangeMsg := rfl

/-- Claim C2 (code bug): the claim says encoding strings as
`{4-byte LE length, UTF-8 bytes}` records and decoding with the matching
strategy reproduces them.  For the scalar strategy the code calls
`binary.Read` into a `*string`, which `encoding/binary` rejects for every
non-empty payload, so even the single string `"a"` never round-trips: the
decode returns a binary-read error instead of `"a"`. -/
theorem c2_scalar_string_roundtrip_fails :
    unmarshal [⟨"out", "STRING", [1]⟩] [encodeStrings [[97]]]
      [⟨"out", Ty.str, Val.str []⟩] = Res.err invalidStringReadMsg := rfl

/-- Claim C3 (code bug): the claim says rank 0 and rank above 2 both
return an unsupported-rank error.  Rank above 2 does, but a rank-0 shape
reaches the switch case `shape[0] == 1 && len(shape) == 2`, whose
`shape[0]` read panics with index out of range instead of returning an
error. -/
theorem c3_rank_zero_shape_panics :
    unmarshal [⟨"out", "INT32", ([] : List Int)⟩] [[]]
      [⟨"out", Ty.num NumTy.int32, Val.num NumTy.int32 0⟩]
      = Res.fault indexOutOfRangeMsg := rfl

/-- Claim C4 (code bug): the claim says the 1-D string strategy for shape
`[1, n]` decodes exactly `n = shape[1]` elements.  The code sets the
element count to `len(resp.GetShape())` — the rank, always 2 on this path
— so a shape `[1, 3]` output whose payload holds the three strings
`"a"`, `"b"`, `"c"` decodes to just `["a", "b"]`. -/
theorem c4_one_dim_string_count_uses_rank :
    unmarshal [⟨"out", "STRING", [1, 3]⟩] [encodeStrings [[97], [98], [99]]]
      [⟨"out", Ty.slice Ty.str, Val.arr []⟩]
      = Res.ok [⟨"out", Ty.slice Ty.str, Val.arr [Val.str [97], Val.str [98]]⟩] := rfl

/-- Claim C5 (code bug): the claim says a string payload that ends before
the required element count yields a `Truncated` error and never faults.
The decoder slices `b[prev : prev+4]` and `b[prev+4 : prev+4+L]` without
bounds checks, so a short payload panics with slice bounds out of range:
here a `[2, 1]`-shaped STRING output whose payload holds only one record. -/
theorem c5_truncated_string_payload_panics :
    unmarshal [⟨"out", "STRING", [2, 1]⟩] [[1, 0, 0, 0, 97]]
      [⟨"out", Ty.slice (Ty.slice Ty.str), Val.arr []⟩]
      = Res.fault sliceBoundsMsg := rfl

/-- Claim C6 counterexample: the claim says every numeric payload whose
length is not a multiple of the primitive width fails with a truncation
error.  A scalar `INT32` output with a 5-byte payload succeeds: the read
consumes the first four bytes and the fifth is silently dropped. -/
theorem c6_scalar_surplus_bytes_succeed :
    unmarshal [⟨"out", "INT32", [1]⟩] [[1, 0, 0, 0, 99]]
      [⟨"out", Ty.num NumTy.int32, Val.num NumTy.int32 0⟩]
      = Res.ok [⟨"out", Ty.num NumTy.int32, Val.num NumTy.int32 1⟩] := rfl

/-- Claim C6 amended: for the 1-D strategy, a payload whose length is not
an exact multiple of the primitive width fails with a binary-read
(truncation) error, and for the scalar strategy a payload shorter than
one element width fails likewise; a scalar payload of at least one width
succeeds with the remainder ignored (see the counterexample), and the 2-D
numeric path cannot decode at all (see C1). -/
theorem c6_numeric_truncation_errors :
    (∀ (t : NumTy) (m : FieldMap) (s : Struct) (name : String) (i : Nat)
        (f : TaggedField) (n : Int) (raw : Bytes),
      m name = some i → s[i]? = some f → f.ty = Ty.slice (Ty.num t) →
      0 ≤ n → ¬ width t ∣ raw.length →
      unmarshalArray t m s name [1, n] raw = Res.err binaryReadMsg)
    ∧ (∀ (t : NumTy) (m : FieldMap) (s : Struct) (name : String) (i : Nat)
        (f : TaggedField) (raw : Bytes),
      m name = some i → s[i]? = some f → f.ty = Ty.num t →
      raw.length < width t →
      unmarshalValue t m s name raw = Res.err binaryReadMsg) := by
  constructor
  · intro t m s name i f n raw hm hf hty hn hd
    have hnn : ¬ n < 0 := by omega
    simp [unmarshalArray, hm, hf, hty, hnn,
      bytesToArray_eq_none t raw.length raw le_rfl hd]
  · intro t m s name i f raw hm hf hty hlt
    simp [unmarshalValue, hm, hf, hty, readElem, hlt]

/-- Witness for `c6_numeric_truncation_errors`: an `INT32` 1-D payload of
3 bytes and a scalar payload of 2 bytes both fail with the read error. -/
theorem c6_numeric_truncation_errors_witness :
    unmarshalArray NumTy.int32 (fun k => if k = "x" then some 0 else none)
      [⟨"x", Ty.slice (Ty.num NumTy.int32), Val.arr []⟩] "x" [1, 2] [1, 0, 0]
      = Res.err binaryReadMsg
    ∧ unmarshalValue NumTy.int32 (fun k => if k = "x" then some 0 else none)
      [⟨"x", Ty.num NumTy.int32, Val.num NumTy.int32 0⟩] "x" [1, 0]
      = Res.err binaryReadMsg := by
  constructor
  · exact c6_numeric_truncation_errors.1 NumTy.int32 _ _ "x" 0
      ⟨"x", Ty.slice (Ty.num NumTy.int32), Val.arr []⟩ 2 [1, 0, 0]
      rfl rfl rfl (by decide) (by decide)
  · exact c6_numeric_truncation_errors.2 NumTy.int32 _ _ "x" 0
      ⟨"x", Ty.num NumTy.int32, Val.num NumTy.int32 0⟩ [1, 0] rfl rfl rfl (by decide)

/-- Claim C7 counterexample: the claim says an output bound to a field of
the wrong static type always fails with a type-mismatch error.  A STRING
output with an empty payload returns success before the type check runs,
even though its mapped field is an `int32`, not a `string`. -/
theorem c7_empty_string_payload_skips_type_check :
    unmarshal [⟨"out", "STRING", [1]⟩] [[]]
      [⟨"out", Ty.num NumTy.int32, Val.num NumTy.int32 0⟩]
      = Res.ok [⟨"out", Ty.num NumTy.int32, Val.num NumTy.int32 0⟩] := rfl

/-- Claim C7 amended: for every supported datatype tag and mapped field
whose static type differs from the implied type, decoding fails with the
type-mismatch error and never writes the field — except the scalar STRING
strategy when the payload is shorter than its 4-byte length header: an
empty payload returns success without touching the field, and a 1–3 byte
payload fails with a binary-read error instead. -/
theorem c7_type_mismatch_errors :
    (∀ (dt : String) (et : Ty) (m : FieldMap) (s : Struct) (name : String)
        (i : Nat) (f : TaggedField) (d : Int) (raw : Bytes),
      elemTyOfTag dt = some et → m name = some i → s[i]? = some f → f.ty ≠ et →
      parseToValue m s ⟨name, dt, [d]⟩ raw =
        (if et = Ty.str ∧ raw.length = 0 then Res.ok s
         else if et = Ty.str ∧ raw.length < 4 then Res.err binaryReadMsg
         else Res.err typeMismatchMsg))
    ∧ (∀ (dt : String) (et : Ty) (m : FieldMap) (s : Struct) (name : String)
        (i : Nat) (f : TaggedField) (n : Int) (raw : Bytes),
      elemTyOfTag dt = some et → 0 ≤ n → m name = some i → s[i]? = some f →
      f.ty ≠ Ty.slice et →
      parseToArray m s ⟨name, dt, [1, n]⟩ raw = Res.err typeMismatchMsg)
    ∧ (∀ (dt : String) (et : Ty) (m : FieldMap) (s : Struct) (name : String)
        (i : Nat) (f : TaggedField) (mm n : Int) (raw : Bytes),
      elemTyOfTag dt = some et → 0 ≤ mm → m name = some i → s[i]? = some f →
      f.ty ≠ Ty.slice (Ty.slice et) →
      parseToMultidimenshionalArray m s ⟨name, dt, [mm, n]⟩ raw
        = Res.err typeMismatchMsg) := by
  refine ⟨?_, ?_, ?_⟩
  · intro dt et m s name i f d raw hdt hm hf hty
    rcases elemTyOfTag_inv dt et hdt with ⟨h, he⟩ | ⟨h, he⟩ | ⟨h, he⟩ | ⟨h, he⟩ | ⟨h, he⟩
      | ⟨h, he⟩ | ⟨h, he⟩ | ⟨h, he⟩ | ⟨h, he⟩ | ⟨h, he⟩ | ⟨h, he⟩ <;> subst h <;> subst he
    case _ => simp +decide [parseToValue, unmarshalValue, hm, hf, hty]
    case _ => simp +decide [parseToValue, unmarshalValue, hm, hf, hty]
    case _ => simp +decide [parseToValue, unmarshalValue, hm, hf, hty]
    case _ => simp +decide [parseToValue, unmarshalValue, hm, hf, hty]
    case _ => simp +decide [parseToValue, unmarshalValue, hm, hf, hty]
    case _ => simp +decide [parseToValue, unmarshalValue, hm, hf, hty]
    case _ => simp +decide [parseToValue, unmarshalValue, hm, hf, hty]
    case _ => simp +decide [parseToValue, unmarshalValue, hm, hf, hty]
    case _ => simp +decide [parseToValue, unmarshalValue, hm, hf, hty]
    case _ => simp +decide [parseToValue, unmarshalValue, hm, hf, hty]
    case _ =>
      by_cases h0 : raw.length = 0
      · simp +decide [parseToValue, unmarshalStringValue, h0]
      · by_cases h4 : raw.length < 4
        · simp +decide [parseToValue, unmarshalStringValue, readElem, h0, h4]
        · simp +decide [parseToValue, unmarshalStringValue, readElem, h0, h4, hm, hf, hty]
  · intro dt et m s name i f n raw hdt hn hm hf hty
    have hnn : ¬ n < 0 := by omega
    rcases elemTyOfTag_inv dt et hdt with ⟨h, he⟩ | ⟨h, he⟩ | ⟨h, he⟩ | ⟨h, he⟩ | ⟨h, he⟩
      | ⟨h, he⟩ | ⟨h, he⟩ | ⟨h, he⟩ | ⟨h, he⟩ | ⟨h, he⟩ | ⟨h, he⟩ <;> subst h <;> subst he <;>
      simp +decide [parseToArray, unmarshalArray, unmarshalStringArray, hnn, hm, hf, hty]
  · intro dt et m s name i f mm n raw hdt hmm hm hf hty
    have hmn : ¬ mm < 0 := by omega
    rcases elemTyOfTag_inv dt et hdt with ⟨h, he⟩ | ⟨h, he⟩ | ⟨h, he⟩ | ⟨h, he⟩ | ⟨h, he⟩
      | ⟨h, he⟩ | ⟨h, he⟩ | ⟨h, he⟩ | ⟨h, he⟩ | ⟨h, he⟩ | ⟨h, he⟩ <;> subst h <;> subst he <;>
      simp +decide [parseToMultidimenshionalArray, unmarshalMultidimenshionalArray,
        unmarshalMultidimenshionalStringArray, hmn, hm, hf, hty]

/-- Witness for `c7_type_mismatch_errors`: an `INT64` output bound to an
`int32`, `[]int32`, and `[][]int32` field under each of the three shape
strategies fails with the type-mismatch error. -/
theorem c7_type_mismatch_errors_witness :
    parseToValue (fun k => if k = "x" then some 0 else none)
      [⟨"x", Ty.num NumTy.int32, Val.num NumTy.int32 0⟩] ⟨"x", INT64, [1]⟩
      [0, 0, 0, 0, 0, 0, 0, 0] = Res.err typeMismatchMsg
    ∧ parseToArray (fun k => if k = "x" then some 0 else none)
      [⟨"x", Ty.slice (Ty.num NumTy.int32), Val.arr []⟩] ⟨"x", INT64, [1, 1]⟩
      [0, 0, 0, 0, 0, 0, 0, 0] = Res.err typeMismatchMsg
    ∧ parseToMultidimenshionalArray (fun k => if k = "x" then some 0 else none)
      [⟨"x", Ty.slice (Ty.slice (Ty.num NumTy.int32)), Val.arr []⟩] ⟨"x", INT64, [2, 1]⟩
      [] = Res.err typeMismatchMsg := by
  refine ⟨?_, ?_, ?_⟩
  · have h := c7_type_mismatch_errors.1 INT64 (Ty.num NumTy.int64)
      (fun k => if k = "x" then some 0 else none)
      [⟨"x", Ty.num NumTy.int32, Val.num NumTy.int32 0⟩] "x" 0
      ⟨"x", Ty.num NumTy.int32, Val.num NumTy.int32 0⟩ 1 [0, 0, 0, 0, 0, 0, 0, 0]
      rfl rfl rfl (by decide)
    simpa using h
  · exact c7_type_mismatch_errors.2.1 INT64 (Ty.num NumTy.int64)
      (fun k => if k = "x" then some 0 else none)
      [⟨"x", Ty.slice (Ty.num NumTy.int32), Val.arr []⟩] "x" 0
      ⟨"x", Ty.slice (Ty.num NumTy.int32), Val.arr []⟩ 1 [0, 0, 0, 0, 0, 0, 0, 0]
      rfl (by decide) rfl rfl (by decide)
  · exact c7_type_mismatch_errors.2.2 INT64 (Ty.num NumTy.int64)
      (fun k => if k = "x" then some 0 else none)
      [⟨"x", Ty.slice (Ty.slice (Ty.num NumTy.int32)), Val.arr []⟩] "x" 0
      ⟨"x", Ty.slice (Ty.slice (Ty.num NumTy.int32)), Val.arr []⟩ 2 1 []
      rfl (by decide) rfl rfl (by decide)

/-- Claim C8: the orchestrator walks the outputs in ascending index order
pairing output `i` with `rawBytes[i]`; a run of outputs whose names miss
the registry is skipped with no error and no state change; a mapped
output whose `parse` fails makes the whole call return that error at once
(the remaining outputs are never examined); a mapped output whose `parse`
succeeds passes the updated struct to the rest of the loop. -/
theorem c8_orchestrator_skip_and_fail_fast :
    (∀ (m : FieldMap) (raws : List Bytes) (pre rest : List Output) (i : Nat) (s : Struct),
      (∀ o ∈ pre, m o.name = none) →
      unmarshalAux m raws (pre ++ rest) i s = unmarshalAux m raws rest (i + pre.length) s)
    ∧ (∀ (m : FieldMap) (raws : List Bytes) (o : Output) (rest : List Output)
        (i j : Nat) (s : Struct) (rb : Bytes) (e : String),
      m o.name = some j → raws[i]? = some rb → parse m s o rb = Res.err e →
      unmarshalAux m raws (o :: rest) i s = Res.err e)
    ∧ (∀ (m : FieldMap) (raws : List Bytes) (o : Output) (rest : List Output)
        (i j : Nat) (s s2 : Struct) (rb : Bytes),
      m o.name = some j → raws[i]? = some rb → parse m s o rb = Res.ok s2 →
      unmarshalAux m raws (o :: rest) i s = unmarshalAux m raws rest (i + 1) s2) := by
  refine ⟨?_, ?_, ?_⟩
  · intro m raws pre
    induction pre with
    | nil => intro rest i s h; simp
    | cons p pre ih =>
      intro rest i s h
      have hp : m p.name = none := h p (by simp)
      have hrest : ∀ o ∈ pre, m o.name = none := fun o ho => h o (by simp [ho])
      have hstep : unmarshalAux m raws ((p :: pre) ++ rest) i s
          = unmarshalAux m raws (pre ++ rest) (i + 1) s := by
        simp [unmarshalAux, hp]
      rw [hstep, ih rest (i + 1) s hrest]
      have harith : i + 1 + pre.length = i + (p :: pre).length := by
        simp [List.length_cons]; omega
      rw [harith]
  · intro m raws o rest i j s rb e hm hr hp
    simp [unmarshalAux, hm, hr, hp]
  · intro m raws o rest i j s s2 rb hm hr hp
    simp [unmarshalAux, hm, hr, hp]

/-- Witness for `c8_orchestrator_skip_and_fail_fast`: an unmapped output
is skipped, a mapped `FLOAT16` output aborts with its error, and a mapped
`INT32` output hands the updated struct to the remaining loop. -/
theorem c8_orchestrator_skip_and_fail_fast_witness :
    unmarshalAux (fun k => if k = "x" then some 0 else none) [[5, 0, 0, 0]]
      ([⟨"skip", INT32, [1]⟩] ++ [])
      0 [⟨"x", Ty.num NumTy.int32, Val.num NumTy.int32 0⟩]
      = unmarshalAux (fun k => if k = "x" then some 0 else none) [[5, 0, 0, 0]] [] (0 + 1)
        [⟨"x", Ty.num NumTy.int32, Val.num NumTy.int32 0⟩]
    ∧ unmarshalAux (fun k => if k = "x" then some 0 else none) [[5, 0, 0, 0]]
      [⟨"x", FLOAT16, [1]⟩] 0 [⟨"x", Ty.num NumTy.int32, Val.num NumTy.int32 0⟩]
      = Res.err float16Msg
    ∧ unmarshalAux (fun k => if k = "x" then some 0 else none) [[5, 0, 0, 0]]
      [⟨"x", INT32, [1]⟩] 0 [⟨"x", Ty.num NumTy.int32, Val.num NumTy.int32 0⟩]
      = unmarshalAux (fun k => if k = "x" then some 0 else none) [[5, 0, 0, 0]] [] (0 + 1)
        [⟨"x", Ty.num NumTy.int32, Val.num NumTy.int32 5⟩] := by
  refine ⟨?_, ?_, ?_⟩
  · have h := c8_orchestrator_skip_and_fail_fast.1
      (fun k => if k = "x" then some 0 else none) [[5, 0, 0, 0]]
      [⟨"skip", INT32, [1]⟩] [] 0 [⟨"x", Ty.num NumTy.int32, Val.num NumTy.int32 0⟩]
      (by intro o ho; simp at ho; subst ho; rfl)
    simpa using h
  · exact c8_orchestrator_skip_and_fail_fast.2.1
      (fun k => if k = "x" then some 0 else none) [[5, 0, 0, 0]]
      ⟨"x", FLOAT16, [1]⟩ [] 0 0 [⟨"x", Ty.num NumTy.int32, Val.num NumTy.int32 0⟩]
      [5, 0, 0, 0] float16Msg rfl rfl rfl
  · exact c8_orchestrator_skip_and_fail_fast.2.2
      (fun k => if k = "x" then some 0 else none) [[5, 0, 0, 0]]
      ⟨"x", INT32, [1]⟩ [] 0 0 [⟨"x", Ty.num NumTy.int32, Val.num NumTy.int32 0⟩]
      [⟨"x", Ty.num NumTy.int32, Val.num NumTy.int32 5⟩] [5, 0, 0, 0] rfl rfl rfl

/-- Claim C9: a STRING output with a zero-length payload and a mapped
field of the matching type returns success under all three shape
strategies, leaving the struct untouched, so a field holding the zero
value of its type (empty string, nil slice) still holds that empty value
afterwards. -/
theorem c9_empty_string_payload_yields_empty :
    (∀ (m : FieldMap) (s : Struct) (name : String) (i : Nat) (f : TaggedField) (d : Int),
      m name = some i → s[i]? = some f → f.ty = Ty.str → f.val = Val.str [] →
      parse m s ⟨name, STRING, [d]⟩ [] = Res.ok s ∧ f.val = Val.str [])
    ∧ (∀ (m : FieldMap) (s : Struct) (name : String) (i : Nat) (f : TaggedField) (n : Int),
      m name = some i → s[i]? = some f → f.ty = Ty.slice Ty.str → f.val = Val.arr [] →
      parse m s ⟨name, STRING, [1, n]⟩ [] = Res.ok s ∧ f.val = Val.arr [])
    ∧ (∀ (m : FieldMap) (s : Struct) (name : String) (i : Nat) (f : TaggedField) (mm n : Int),
      1 < mm → 0 ≤ n → m name = some i → s[i]? = some f →
      f.ty = Ty.slice (Ty.slice Ty.str) → f.val = Val.arr [] →
      parse m s ⟨name, STRING, [mm, n]⟩ [] = Res.ok s ∧ f.val = Val.arr []) := by
  refine ⟨?_, ?_, ?_⟩
  · intro m s name i f d hm hf hty hval
    refine ⟨?_, hval⟩
    simp +decide [parse, parseToValue, unmarshalStringValue]
  · intro m s name i f n hm hf hty hval
    refine ⟨?_, hval⟩
    simp +decide [parse, parseToArray, unmarshalStringArray, hm, hf, hty]
  · intro m s name i f mm n hmm hn hm hf hty hval
    refine ⟨?_, hval⟩
    have h1 : ¬ mm = 1 := by omega
    have h2 : ¬ mm < 0 := by omega
    have h3 : ¬ n < 0 := by omega
    simp +decide [parse, parseToMultidimenshionalArray,
      unmarshalMultidimenshionalStringArray, hm, hf, hty, h1, h2, h3, hmm]

/-- Witness for `c9_empty_string_payload_yields_empty`: empty payloads
under shapes `[1]`, `[1, 3]` and `[2, 3]` with matching zero-valued
string fields all succeed and leave the field empty. -/
theorem c9_empty_string_payload_yields_empty_witness :
    (parse (fun k => if k = "x" then some 0 else none) [⟨"x", Ty.str, Val.str []⟩]
      ⟨"x", STRING, [1]⟩ [] = Res.ok [⟨"x", Ty.str, Val.str []⟩]
      ∧ Val.str [] = Val.str [])
    ∧ (parse (fun k => if k = "x" then some 0 else none) [⟨"x", Ty.slice Ty.str, Val.arr []⟩]
      ⟨"x", STRING, [1, 3]⟩ [] = Res.ok [⟨"x", Ty.slice Ty.str, Val.arr []⟩]
      ∧ Val.arr [] = Val.arr [])
    ∧ (parse (fun k => if k = "x" then some 0 else none)
      [⟨"x", Ty.slice (Ty.slice Ty.str), Val.arr []⟩]
      ⟨"x", STRING, [2, 3]⟩ [] = Res.ok [⟨"x", Ty.slice (Ty.slice Ty.str), Val.arr []⟩]
      ∧ Val.arr [] = Val.arr []) := by
  refine ⟨?_, ?_, ?_⟩
  · exact c9_empty_string_payload_yields_empty.1
      (fun k => if k = "x" then some 0 else none) [⟨"x", Ty.str, Val.str []⟩]
      "x" 0 ⟨"x", Ty.str, Val.str []⟩ 1 rfl rfl rfl rfl
  · exact c9_empty_string_payload_yields_empty.2.1
      (fun k => if k = "x" then some 0 else none)
      [⟨"x", Ty.slice Ty.str, Val.arr []⟩] "x" 0 ⟨"x", Ty.slice Ty.str, Val.arr []⟩ 3
      rfl rfl rfl rfl
  · exact c9_empty_string_payload_yields_empty.2.2
      (fun k => if k = "x" then some 0 else none)
      [⟨"x", Ty.slice (Ty.slice Ty.str), Val.arr []⟩] "x" 0
      ⟨"x", Ty.slice (Ty.slice Ty.str), Val.arr []⟩ 2 3 (by decide) (by decide) rfl rfl rfl rfl

/-- Claim C10 counterexample: the claim says unannotated fields map to a
sentinel key that is never looked up, so no output — not even one named
the empty string — can bind to them.  But the sentinel key is the empty
string itself, and an output named `""` finds it: here the untagged
`int32` field receives the decoded value 7. -/
theorem c10_empty_name_output_binds_untagged_field :
    unmarshal [⟨"", "INT32", [1]⟩] [[7, 0, 0, 0]]
      [⟨"", Ty.num NumTy.int32, Val.num NumTy.int32 0⟩]
      = Res.ok [⟨"", Ty.num NumTy.int32, Val.num NumTy.int32 7⟩] := rfl

/-- Claim C10 amended: the registry maps unannotated fields under the
empty-string key, and any lookup that succeeds returns a field whose tag
equals the looked-up output name; hence an output with a non-empty name
never binds to an unannotated field, but an output whose name is the
empty string does resolve to an unannotated field (see the
counterexample). -/
theorem c10_registry_resolves_matching_tag :
    ∀ (s : Struct) (name : String) (i : Nat),
      getTagFieldMap s name = some i → ∃ f, s[i]? = some f ∧ f.tag = name := by
  intro s name i h
  rcases getTagFieldMapAux_spec s 0 (fun _ => none) name i h with h0 | ⟨j, f, hj, hf, hi⟩
  · exact Option.noConfusion h0
  · subst hi
    exact ⟨f, by simpa using hj, hf⟩

/-- Witness for `c10_registry_resolves_matching_tag`: looking up `"a"` in
a one-field struct returns its field, whose tag is `"a"`. -/
theorem c10_registry_resolves_matching_tag_witness :
    ∃ f, ([⟨"a", Ty.str, Val.str []⟩] : Struct)[0]? = some f ∧ f.tag = "a" :=
  c10_registry_resolves_matching_tag [⟨"a", Ty.str, Val.str []⟩] "a" 0 rfl

end TritonParser
